import Mathlib

/-!
Verification of the FinAi conversational finance-agent orchestrator
(`fintech/backend/services/agent.py`) against its specification.

The Python source is shallowly embedded: Django querysets become Lean
lists, `Decimal` becomes `ℚ`, timestamps become `Nat`, and the hosted
language-model capability becomes an explicit oracle parameter.  Django's
`order_by` is modelled as a stable merge sort (equal keys keep database
order), matching Python's stable `sorted`.  Python `dict`s (which preserve
insertion order) become association lists updated in place.  String
operations (`lower`, `strip`, `split`, `startswith`, `in`,
`icontains`) are re-implemented over `List Char` with ASCII semantics.
-/

/-! ### Python-flavoured string primitives -/

/-- `s.lower()` (ASCII). -/
def pyLower (s : String) : String := String.mk (s.data.map Char.toLower)

/-- `s.upper()` (ASCII). -/
def pyUpper (s : String) : String := String.mk (s.data.map Char.toUpper)

/-- Drop leading whitespace characters. -/
def dropLeadWs : List Char → List Char
  | [] => []
  | c :: t => if c.isWhitespace then dropLeadWs t else c :: t

/-- `s.strip()`: remove leading and trailing whitespace. -/
def pyStrip (s : String) : String :=
  String.mk ((dropLeadWs (dropLeadWs s.data.reverse).reverse))

/-- Does the second character list start with the first one? -/
def leadsSeq : List Char → List Char → Bool
  | [], _ => true
  | _ :: _, [] => false
  | a :: as, b :: bs => a == b && leadsSeq as bs

/-- Does the haystack (second argument) contain the needle (first argument)
as a contiguous subsequence? -/
def hasSeq (needle : List Char) : List Char → Bool
  | [] => leadsSeq needle []
  | c :: t => leadsSeq needle (c :: t) || hasSeq needle t

/-- Python `needle in hay` on strings. -/
def containsStr (hay needle : String) : Bool := hasSeq needle.data hay.data

/-- `hay.startswith(w)`. -/
def startsWithStr (hay w : String) : Bool := leadsSeq w.data hay.data

/-- Django `field__icontains=needle`: case-insensitive substring match. -/
def icontains (hay needle : String) : Bool :=
  containsStr (pyLower hay) (pyLower needle)

/-- Accumulator-based splitting of a character list on whitespace runs. -/
def wordsAux : List Char → List Char → List (List Char)
  | [], acc => if acc.isEmpty then [] else [acc.reverse]
  | c :: t, acc =>
    if c.isWhitespace then
      if acc.isEmpty then wordsAux t [] else acc.reverse :: wordsAux t []
    else wordsAux t (c :: acc)

/-- `len(s.split())`: number of whitespace-separated words. -/
def pyWordCount (s : String) : Nat := (wordsAux s.data []).length

/-! ### Greeting short-circuit (`is_greeting_message`, lines 767-786) -/

/-- The fixed greeting-word set of `is_greeting_message`. -/
def greetingWords : List String :=
  ["hello", "hi", "hey", "good morning", "good afternoon", "good evening"]

/-- `is_greeting_message(prompt)` (agent.py lines 767-786): the prompt is
lower-cased and stripped; the result is true when it starts with a greeting
word, equals a greeting word, or the original prompt has at most three
words and the lowered prompt contains a greeting word. -/
def is_greeting_message (prompt : String) : Bool :=
  let promptLower := pyStrip (pyLower prompt)
  greetingWords.any (fun w => startsWithStr promptLower w)
  || greetingWords.any (fun w => w == promptLower)
  || (decide (pyWordCount prompt ≤ 3)
      && greetingWords.any (fun w => containsStr promptLower w))

/-- Modelled from the spec wording of claim C8 (for refinement comparison
with `is_greeting_message`): exact match against the fixed greeting-word
set, OR the lower-cased trimmed message starts with a greeting word, OR
the message has three words or fewer and contains a greeting word. -/
def greetingSpecB (prompt : String) : Bool :=
  let promptLower := pyStrip (pyLower prompt)
  greetingWords.any (fun w => w == promptLower)
  || greetingWords.any (fun w => startsWithStr promptLower w)
  || (decide (pyWordCount prompt ≤ 3)
      && greetingWords.any (fun w => containsStr promptLower w))

/-! ### Data model

Lean records for the Django rows the agent reads: `Accounts`, `FXRate`,
`ChatMemory`, and the auth `User`.  Foreign keys to `FinancialInstitution`
are flattened to the institution name, which is all the agent code reads. -/

/-- A row of the auth user table (the fields `agent.py` reads). -/
structure UserRec where
  id : Nat
  username : String
  first_name : String
  last_name : String
  email : String
  is_active : Bool
deriving DecidableEq

/-- A row of `Accounts` (models.py lines 5-20); `financial_institution` is
flattened to the institution name, `available_balance` is nullable. -/
structure Account where
  user_id : Nat
  bank : String
  account_id : String
  account_status : String
  account_currency : String
  available_balance : Option ℚ
deriving DecidableEq

/-- A row of `FXRate` (models.py lines 106-121), flattened likewise. -/
structure FXR where
  bank : String
  source_currency : String
  target_currency : String
  conversion_value : ℚ
  effective_date : Nat
deriving DecidableEq

/-- A row of `ChatMemory` (models.py lines 129-149). -/
structure ChatRow where
  user_id : Nat
  message_type : String
  content : String
  session_id : String
  timestamp : Nat
deriving DecidableEq

/-- A LangChain chat message (`HumanMessage` / `AIMessage`). -/
inductive ChatMsg where
  | human (content : String)
  | ai (content : String)
deriving DecidableEq

/-- The relational store the agent reads (rows in database order). -/
structure DB where
  users : List UserRec
  accounts : List Account
  fxrates : List FXR
  chat : List ChatRow
deriving DecidableEq

/-! ### Stable descending sort (Django `order_by("-field")`, Python
`sorted(key=..., reverse=True)`)

Both are stable: rows with equal keys keep their database/insertion
order.  `List.mergeSort` with `le a b := f b ≤ f a` is exactly that. -/

/-- Stable sort of `l`, descending on the key `f`. -/
def sortDescBy {α β : Type} [LinearOrder β] (f : α → β) (l : List α) : List α :=
  l.mergeSort (fun a b => decide (f b ≤ f a))

/-! ### Conversation Memory Store (`DjangoChatMemory`, agent.py lines 31-93) -/

/-- The rows of `ChatMemory` matching one `(user_id, session_id)` pair
(the queryset filter of `load_memory_variables`, lines 65-66). -/
def chatMatches (rows : List ChatRow) (uid : Nat) (sid : String) : List ChatRow :=
  rows.filter (fun r => r.user_id == uid && r.session_id == sid)

/-- `order_by("-timestamp")` over the matching rows (line 67). -/
def recentDesc (rows : List ChatRow) (uid : Nat) (sid : String) : List ChatRow :=
  sortDescBy (fun r => r.timestamp) (chatMatches rows uid sid)

/-- The rows `load_memory_variables` converts: slice `[:5]` of the
descending list, then reversed to chronological order (lines 67-72). -/
def selectedRows (rows : List ChatRow) (uid : Nat) (sid : String) : List ChatRow :=
  ((recentDesc rows uid sid).take 5).reverse

/-- Conversion of one stored row to a LangChain message (lines 75-79):
rows whose `message_type` is neither `user` nor `assistant` are skipped. -/
def msgOf (r : ChatRow) : Option ChatMsg :=
  if r.message_type == "user" then some (ChatMsg.human r.content)
  else if r.message_type == "assistant" then some (ChatMsg.ai r.content)
  else none

/-- `DjangoChatMemory.load_memory_variables` (agent.py lines 61-84): the
`chat_history` list it returns. -/
def load_memory_variables (rows : List ChatRow) (uid : Nat) (sid : String) :
    List ChatMsg :=
  (selectedRows rows uid sid).filterMap msgOf

/-- One `ChatMemory.objects.create` row (lines 44-57): server-assigned
timestamp `now`. -/
def mkRow (uid : Nat) (sid : String) (role content : String) (now : Nat) : ChatRow :=
  { user_id := uid, message_type := role, content := content,
    session_id := sid, timestamp := now }

/-- Which of the two `create` calls inside `save_context` (lines 42-59)
raises, if any; both are inside one `try`, and an exception is caught and
only printed. -/
inductive MemFail where
  | ok
  | firstRaises
  | secondRaises
deriving DecidableEq

/-- `DjangoChatMemory.save_context` (agent.py lines 40-59): appends the
user row then the assistant row; a storage exception is swallowed, leaving
whatever had already been created. -/
def save_context (chat : List ChatRow) (fail : MemFail) (uid : Nat) (sid : String)
    (now : Nat) (inp outp : String) : List ChatRow :=
  match fail with
  | MemFail.ok => chat ++ [mkRow uid sid "user" inp now, mkRow uid sid "assistant" outp now]
  | MemFail.firstRaises => chat
  | MemFail.secondRaises => chat ++ [mkRow uid sid "user" inp now]

/-! ### Python dicts as insertion-ordered association lists -/

/-- Key lookup in an association list (Python `key in dict` / `dict[key]`). -/
def alookup {β : Type} (c : String) : List (String × β) → Option β
  | [] => none
  | (c', v) :: t => if c' == c then some v else alookup c t

/-- `dict[c] = dict.get(c, 0) + v` on an insertion-ordered dict: an
existing key is updated in place, a new key is appended. -/
def bump (acc : List (String × ℚ)) (c : String) (v : ℚ) : List (String × ℚ) :=
  match acc with
  | [] => [(c, v)]
  | (c', t) :: rest => if c' == c then (c', t + v) :: rest else (c', t) :: bump rest c v

/-! ### Balance tools (agent.py lines 427-605) -/

/-- `Accounts.objects.filter(user_id=user_id)` in database order. -/
def userAccounts (db : DB) (uid : Nat) : List Account :=
  db.accounts.filter (fun a => a.user_id == uid)

/-- Python truthiness of `account.available_balance` (a nullable
`Decimal`): `None` and `Decimal("0")` are both falsy. -/
def balTruthy (a : Account) : Bool :=
  match a.available_balance with
  | some b => b != 0
  | none => false

/-- The balance a tool displays for an account when it tests
`if account.available_balance:` — `none` stands for the "Not available"
text / an omitted balance line. -/
def shownBalance (a : Account) : Option ℚ :=
  if balTruthy a then a.available_balance else none

/-- One line of `get_user_balance`'s output (agent.py lines 469-483). -/
structure BalLine where
  bank : String
  account_id : String
  balance : Option ℚ
  currency : String
  status : String
deriving DecidableEq

/-- The per-account record `get_user_balance` builds (lines 470-480):
`balance` is `str(...)` if truthy else "Not available" (here `none`). -/
def toBalLine (a : Account) : BalLine :=
  { bank := a.bank, account_id := a.account_id, balance := shownBalance a,
    currency := a.account_currency, status := a.account_status }

/-- `get_user_balance(user_id, account_id=None)` (agent.py lines 452-487):
`none` models the "No accounts found" string. -/
def get_user_balance (db : DB) (uid : Nat) (aid : Option String) :
    Option (List BalLine) :=
  let q := match aid with
    | none => userAccounts db uid
    | some i => (userAccounts db uid).filter (fun a => a.account_id == i)
  if q.isEmpty then none else some (q.map toBalLine)

/-- One account block of `get_user_accounts` (lines 437-445): the balance
line is printed only when `account.available_balance` is truthy. -/
structure AcctLine where
  bank : String
  account_id : String
  currency : String
  balance : Option ℚ
  status : String
deriving DecidableEq

/-- The block `get_user_accounts` prints for one account. -/
def toAcctLine (a : Account) : AcctLine :=
  { bank := a.bank, account_id := a.account_id, currency := a.account_currency,
    balance := shownBalance a, status := a.account_status }

/-- `get_user_accounts(user_id)` (agent.py lines 427-449): `none` models
"No accounts found for this user". -/
def get_user_accounts (db : DB) (uid : Nat) : Option (List AcctLine) :=
  let q := userAccounts db uid
  if q.isEmpty then none else some (q.map toAcctLine)

/-- The queryset of `get_total_balance` (lines 494-496):
`available_balance__isnull=False` — a SQL null test, not truthiness. -/
def balAccounts (db : DB) (uid : Nat) : List Account :=
  db.accounts.filter (fun a => a.user_id == uid && a.available_balance.isSome)

/-- The `currency_totals` dict loop of `get_total_balance` (lines 501-506). -/
def currency_totals (l : List Account) : List (String × ℚ) :=
  l.foldl (fun acc a => bump acc a.account_currency (a.available_balance.getD 0)) []

/-- `get_total_balance(user_id)` (agent.py lines 490-511): `none` models
"No accounts with balance data found". -/
def get_total_balance (db : DB) (uid : Nat) : Option (List (String × ℚ)) :=
  let l := balAccounts db uid
  if l.isEmpty then none else some (currency_totals l)

/-- The `CurrencyAgg` dict value of `get_balance_summary` (lines 536-545):
per-currency running total, account count, and bank-name set. -/
structure CurrencyAgg where
  total : ℚ
  count : Nat
  banks : List String
deriving DecidableEq

/-- The dict update of `get_balance_summary`'s per-currency loop: existing
key updated in place, new key appended; `banks` is a set (`add`). -/
def bumpAgg : List (String × CurrencyAgg) → String → ℚ → String → List (String × CurrencyAgg)
  | [], c, v, b => [(c, { total := v, count := 1, banks := [b] })]
  | (k, g) :: rest, c, v, b =>
    if k == c then
      (k, { total := g.total + v, count := g.count + 1,
            banks := if b ∈ g.banks then g.banks else g.banks ++ [b] }) :: rest
    else (k, g) :: bumpAgg rest c v b

/-- The `currency_data` loop of `get_balance_summary` (lines 532-545):
only accounts whose `available_balance` is truthy enter the aggregation. -/
def currencyData (l : List Account) : List (String × CurrencyAgg) :=
  l.foldl (fun acc a =>
    if balTruthy a then bumpAgg acc a.account_currency (a.available_balance.getD 0) a.bank
    else acc) []

/-- Status-count dict update (lines 556-559). -/
def bumpCount (acc : List (String × Nat)) (s : String) : List (String × Nat) :=
  match acc with
  | [] => [(s, 1)]
  | (k, n) :: rest => if k == s then (k, n + 1) :: rest else (k, n) :: bumpCount rest s

/-- `account.account_status or "Unknown"` (line 558): Python-truthiness of
the status string. -/
def statusLabel (a : Account) : String :=
  if a.account_status == "" then "Unknown" else a.account_status

/-- The numeric content of `get_balance_summary`'s report (lines 514-566). -/
structure BalanceSummary where
  total : Nat
  active : Nat
  withBalance : Nat
  perCurrency : List (String × CurrencyAgg)
  statusCounts : List (String × Nat)
deriving DecidableEq

/-- `get_balance_summary(user_id)` (agent.py lines 514-566): `none` models
"No accounts found for this user".  `withBalance` ("Accounts with Balance
Data") uses the SQL null test `available_balance__isnull=False`, while
`perCurrency` uses Python truthiness. -/
def get_balance_summary (db : DB) (uid : Nat) : Option BalanceSummary :=
  let l := userAccounts db uid
  if l.isEmpty then none
  else some {
    total := l.length,
    active := (l.filter (fun a => a.account_status == "ACTIVE")).length,
    withBalance := (l.filter (fun a => a.available_balance.isSome)).length,
    perCurrency := currencyData l,
    statusCounts := l.foldl (fun acc a => bumpCount acc (statusLabel a)) [] }

/-- The queryset of `check_account_balance` (lines 573-575):
user filter plus case-insensitive substring match on the bank name. -/
def bankAccounts (db : DB) (uid : Nat) (bn : String) : List Account :=
  db.accounts.filter (fun a => a.user_id == uid && icontains a.bank bn)

/-- The `total_balance_by_currency` loop of `check_account_balance`
(lines 581-592): only truthy balances are added. -/
def truthyTotals (l : List Account) : List (String × ℚ) :=
  l.foldl (fun acc a =>
    if balTruthy a then bump acc a.account_currency (a.available_balance.getD 0)
    else acc) []

/-- `check_account_balance(user_id, bank_name)` (agent.py lines 569-605):
per-account lines plus per-currency totals; `none` models
"No accounts found at {bank_name}". -/
def check_account_balance (db : DB) (uid : Nat) (bn : String) :
    Option (List BalLine × List (String × ℚ)) :=
  let l := bankAccounts db uid bn
  if l.isEmpty then none else some (l.map toBalLine, truthyTotals l)

/-! ### FX tools (agent.py lines 267-350) -/

/-- `FXRate.objects.filter(source_currency=src.upper(),
target_currency=tgt.upper())` in database order. -/
def fxPair (db : List FXR) (src tgt : String) : List FXR :=
  db.filter (fun r =>
    r.source_currency == pyUpper src && r.target_currency == pyUpper tgt)

/-- The pair's rates after `order_by("-effective_date")` (line 277). -/
def fxByDateDesc (db : List FXR) (src tgt : String) : List FXR :=
  sortDescBy (fun r => r.effective_date) (fxPair db src tgt)

/-- One step of the `latest_rates` dict loop of `compare_fx_rates`
(lines 283-287): keep the first occurrence per institution name. -/
def latestStep (acc : List (String × FXR)) (r : FXR) : List (String × FXR) :=
  if (alookup r.bank acc).isSome then acc else acc ++ [(r.bank, r)]

/-- The `latest_rates` dict (insertion-ordered) built from the
date-descending rate list. -/
def latestPerBank (l : List FXR) : List (String × FXR) :=
  l.foldl latestStep []

/-- `sorted(latest_rates.items(), key=conversion_value, reverse=True)`
(lines 289-291). -/
def sortedRates (db : List FXR) (src tgt : String) : List (String × FXR) :=
  sortDescBy (fun p => p.2.conversion_value) (latestPerBank (fxByDateDesc db src tgt))

/-- `rates_values = [rate.conversion_value for _, rate in sorted_rates]`
(line 297) — over ALL retained per-institution rates, not just the
displayed `sorted_rates[:5]`. -/
def ratesValues (db : List FXR) (src tgt : String) : List ℚ :=
  (sortedRates db src tgt).map (fun p => p.2.conversion_value)

/-- Python `max` over a nonempty list (junk value 0 on `[]`, a branch
`compare_fx_rates` never reaches). -/
def listMax : List ℚ → ℚ
  | [] => 0
  | x :: xs => xs.foldl max x

/-- Python `min` over a nonempty list (junk value 0 on `[]`). -/
def listMin : List ℚ → ℚ
  | [] => 0
  | x :: xs => xs.foldl min x

/-- The numeric content of `compare_fx_rates`'s report. -/
structure FxComparison where
  displayed : List (String × ℚ)
  average : ℚ
  best : ℚ
  worst : ℚ
deriving DecidableEq

/-- `compare_fx_rates(src, tgt)` (agent.py lines 267-306): `none` models
"No rates available ..."; `displayed` is the enumerated `sorted_rates[:5]`;
`average`/`best`/`worst` are computed over `rates_values` (line 297),
i.e. over all retained institutions. -/
def compare_fx_rates (db : List FXR) (src tgt : String) : Option FxComparison :=
  let rates := fxByDateDesc db src tgt
  if rates.isEmpty then none
  else
    let sr := sortedRates db src tgt
    let rv := ratesValues db src tgt
    some { displayed := (sr.take 5).map (fun p => (p.1, p.2.conversion_value)),
           average := rv.sum / (rv.length : ℚ),
           best := listMax rv,
           worst := listMin rv }

/-- The queryset of `convert_currency` (lines 321-327): the upper-cased
pair, optionally filtered by institution-name substring. -/
def convQuery (db : List FXR) (src tgt : String) (bank : Option String) : List FXR :=
  match bank with
  | none => fxPair db src tgt
  | some bn => (fxPair db src tgt).filter (fun r => icontains r.bank bn)

/-- `query.order_by("-effective_date")` for `convert_currency` (line 331);
`.first()` is its head. -/
def convSorted (db : List FXR) (src tgt : String) (bank : Option String) : List FXR :=
  sortDescBy (fun r => r.effective_date) (convQuery db src tgt bank)

/-- `Decimal.quantize(Decimal("0.01"), rounding=ROUND_HALF_UP)`: round to
2 decimal places, ties away from zero. -/
def roundHalfUp2 (q : ℚ) : ℚ :=
  if 0 ≤ q then ((⌊q * 100 + 1/2⌋ : ℤ) : ℚ) / 100
  else -(((⌊-q * 100 + 1/2⌋ : ℤ) : ℚ) / 100)

/-- Outcome of `convert_currency`; the Python function renders this into
its result text. -/
inductive ConvOutcome where
  | rejected (msg : String)
  | noRate (msg : String)
  | converted (amount : ℚ) (rateUsed : FXR)
deriving DecidableEq

/-- `convert_currency(amount, src, tgt, bank_name=None)` (agent.py lines
309-350): non-positive amounts are rejected before any query; otherwise
the amount is multiplied by the latest-dated matching rate and rounded
half-up to 2 decimals; no matching rate yields the "No exchange rate
found" text. -/
def convert_currency (db : List FXR) (amount : ℚ) (src tgt : String)
    (bank : Option String) : ConvOutcome :=
  if amount ≤ 0 then ConvOutcome.rejected "Please provide a positive amount to convert"
  else
    match (convSorted db src tgt bank).head? with
    | none => ConvOutcome.noRate ("No exchange rate found for " ++ src ++ "/" ++ tgt)
    | some r => ConvOutcome.converted (roundHalfUp2 (amount * r.conversion_value)) r

/-! ### Helper lemmas about the dict folds -/

/-! ### Helper lemmas about `latestPerBank` -/

/-! ### Agent Orchestrator (`run_fintech_agent`, agent.py lines 716-894) -/

/-- A tool call the model issues during one turn: (tool name, arguments). -/
abbrev ToolCall := String × String

/-- Outcome of `agent_executor.invoke` (lines 872-877): either the final
text together with the tool calls resolved during the turn, or an
exception carrying its message. -/
inductive ModelResult where
  | success (toolCalls : List ToolCall) (output : String)
  | failure (msg : String)
deriving DecidableEq

/-- The hosted model as an opaque capability: given the rendered
conversation-context block and the user message, it returns a
`ModelResult`. -/
abbrev ModelOracle := String → String → ModelResult

/-- Per-call ambient configuration: the `GOOGLE_API_KEY` environment
variable, `datetime.now().hour`, the server clock for appends, and the
`uuid4` generated when no session id is supplied. -/
structure RunCfg where
  apiKey : Option String
  hour : Nat
  now : Nat
  freshSession : String

/-- `User.objects.get(id=user_id)`: `none` models `User.DoesNotExist`. -/
def findUser (db : DB) (uid : Nat) : Option UserRec :=
  db.users.find? (fun u => u.id == uid)

/-- `get_personalized_greeting(user_id)` (agent.py lines 732-764):
time-of-day salutation plus an account-count-based summary; any exception
(e.g. unknown user) is caught and replaced by the fixed fallback text. -/
def get_personalized_greeting (db : DB) (hour : Nat) (uid : Nat) : String :=
  match findUser db uid with
  | none => "Hello! I\x27m your AI financial assistant. How can I help you today?"
  | some user =>
    let accounts := db.accounts.filter (fun a => a.user_id == uid)
    let timeGreeting :=
      if hour < 12 then "Good morning"
      else if hour < 17 then "Good afternoon"
      else "Good evening"
    let name := if user.first_name == "" then user.username else user.first_name
    let mid :=
      if accounts.length == 0 then
        "Welcome to MCS! I\x27m here to help you get started with connecting your bank accounts and managing your finances.\n\n"
      else if accounts.length == 1 then
        match accounts.head? with
        | some a => "I see you have an account with " ++ a.bank
            ++ ". I can help you check balances, compare rates, and more!\n\n"
        | none => ""
      else
        let banks := (accounts.map (fun a => a.bank)).dedup
        "Great to see you managing accounts across " ++ toString banks.length
          ++ " banks! I can help you with balances, conversions, and comparisons.\n\n"
    timeGreeting ++ ", " ++ name ++ "! 👋\n\n" ++ mid
      ++ "What would you like to know about your finances today?"

/-- Python truthiness of the optional `user_id` argument: `None` and `0`
are both falsy (`if user_id and ...`, line 795; `if user_id:`, line 822). -/
def truthyUid : Option Nat → Bool
  | none => false
  | some u => u != 0

/-- One line of the `conversation_context` recap (lines 830-835). -/
def msgLine : ChatMsg → String
  | ChatMsg.human c => "User: " ++ c ++ "\n"
  | ChatMsg.ai c => "Assistant: " ++ c ++ "\n"

/-- `conversation_context` (lines 828-835): a recap of the last 4 loaded
messages, or the empty string when the history is empty. -/
def buildContext (hist : List ChatMsg) : String :=
  match hist with
  | [] => ""
  | _ => "Recent conversation:\n"
      ++ String.join ((hist.drop (hist.length - 4)).map msgLine) ++ "\n"

/-- The top-level `except` clause of `run_fintech_agent` (lines 888-894):
classify the exception text. -/
def classifyError (msg : String) : String :=
  if containsStr msg "GOOGLE_API_KEY" then "❌ API key error. Please check configuration."
  else if containsStr (pyLower msg) "rate limit" then
    "⚠️ Rate limit exceeded. Please try again shortly."
  else "❌ Error: " ++ msg

/-- `DjangoChatMemory.__init__` (line 36): the supplied session id, or a
fresh uuid when absent. -/
def sessionOf (cfg : RunCfg) (session_id : Option String) : String :=
  session_id.getD cfg.freshSession

/-- The `chat_history` the orchestrator loads for a truthy user id
(lines 822-825). -/
def historyFor (db : DB) (cfg : RunCfg) (uid : Nat) (session_id : Option String) :
    List ChatMsg :=
  load_memory_variables db.chat uid (sessionOf cfg session_id)

/-- Observable result of one `run_fintech_agent` call: the returned text,
the Memory Store afterwards, and an execution trace (tool calls issued,
whether the model was invoked, whether the greeting short-circuit fired,
how many memory reads happened, and the history handed to the model). -/
structure RunOut where
  response : String
  chat : List ChatRow
  toolCalls : List ToolCall
  modelInvoked : Bool
  greeted : Bool
  memReads : Nat
  history : List ChatMsg
deriving DecidableEq

/-- `run_fintech_agent(prompt, user_id, session_id)` (agent.py lines
789-894).  Control flow: greeting short-circuit (line 795) → LLM handle
creation, raising when `GOOGLE_API_KEY` is unset (lines 716-729, 798) →
memory load for a truthy user id (lines 820-825) → model invocation with
the rendered context (line 876) → persistence of the user/assistant pair
with swallowed failures (lines 879-884) → top-level exception
classification (lines 888-894). -/
def run_fintech_agent (db : DB) (cfg : RunCfg) (oracle : ModelOracle) (fail : MemFail)
    (prompt : String) (user_id : Option Nat) (session_id : Option String) : RunOut :=
  if truthyUid user_id && is_greeting_message prompt then
    { response := get_personalized_greeting db cfg.hour (user_id.getD 0),
      chat := db.chat, toolCalls := [], modelInvoked := false, greeted := true,
      memReads := 0, history := [] }
  else
    match cfg.apiKey with
    | none =>
      { response := classifyError "GOOGLE_API_KEY environment variable is not set",
        chat := db.chat, toolCalls := [], modelInvoked := false, greeted := false,
        memReads := 0, history := [] }
    | some _ =>
      let history := if truthyUid user_id
        then historyFor db cfg (user_id.getD 0) session_id else []
      let reads := if truthyUid user_id then 1 else 0
      match oracle (buildContext history) prompt with
      | ModelResult.failure msg =>
        { response := classifyError msg, chat := db.chat, toolCalls := [],
          modelInvoked := true, greeted := false, memReads := reads, history := history }
      | ModelResult.success tcs outp =>
        let chat2 := if truthyUid user_id
          then save_context db.chat fail (user_id.getD 0) (sessionOf cfg session_id)
            cfg.now prompt outp
          else db.chat
        { response := outp, chat := chat2, toolCalls := tcs,
          modelInvoked := true, greeted := false, memReads := reads, history := history }

/-! ### Concrete fixtures for counterexamples and witnesses -/

/-- An empty store. -/
def db0 : DB := { users := [], accounts := [], fxrates := [], chat := [] }

/-- A configuration with the model credential present. -/
def cfg0 : RunCfg := { apiKey := some "KEY", hour := 9, now := 100, freshSession := "sess" }

/-- An oracle that always succeeds, issuing one tool call. -/
def oracle0 : ModelOracle :=
  fun _ _ => ModelResult.success [("get_user_balance", "user_id=0")] "MODEL OUTPUT"

/-! ### Claim theorems -/

/-- A configuration with the model credential absent. -/
def cfgNoKey : RunCfg := { apiKey := none, hour := 9, now := 100, freshSession := "sess" }

/-- An oracle that always raises a rate-limit error. -/
def oracleRate : ModelOracle := fun _ _ => ModelResult.failure "429 Rate Limit exceeded for model"

/-- A stored USD/JOD rate of 0.709 at one institution. -/
def rateW : FXR :=
  { bank := "BankA", source_currency := "USD", target_currency := "JOD",
    conversion_value := 709/1000, effective_date := 7 }

/-- A store holding only `rateW`. -/
def fxConv : List FXR := [rateW]

/-- One stored USD/JOD rate at one institution (for the C4 witness). -/
def rOne : FXR :=
  { bank := "BankA", source_currency := "USD", target_currency := "JOD",
    conversion_value := 2, effective_date := 5 }

/-- A store holding only `rOne`. -/
def fxOne : List FXR := [rOne]

/-- The comparison report `compare_fx_rates` produces on `fxOne`. -/
def cmpOne : FxComparison :=
  { displayed := [("BankA", 2)], average := 2, best := 2, worst := 2 }

/-- Six same-dated USD/JOD rates at six institutions, values 6 down to 1. -/
def r61 : FXR := { bank := "B1", source_currency := "USD", target_currency := "JOD", conversion_value := 6, effective_date := 0 }

/-- Rate 5 at B2. -/
def r62 : FXR := { bank := "B2", source_currency := "USD", target_currency := "JOD", conversion_value := 5, effective_date := 0 }

/-- Rate 4 at B3. -/
def r63 : FXR := { bank := "B3", source_currency := "USD", target_currency := "JOD", conversion_value := 4, effective_date := 0 }

/-- Rate 3 at B4. -/
def r64 : FXR := { bank := "B4", source_currency := "USD", target_currency := "JOD", conversion_value := 3, effective_date := 0 }

/-- Rate 2 at B5. -/
def r65 : FXR := { bank := "B5", source_currency := "USD", target_currency := "JOD", conversion_value := 2, effective_date := 0 }

/-- Rate 1 at B6. -/
def r66 : FXR := { bank := "B6", source_currency := "USD", target_currency := "JOD", conversion_value := 1, effective_date := 0 }

/-- A store with six institutions quoting USD/JOD. -/
def fxSix : List FXR := [r61, r62, r63, r64, r65, r66]

/-- The report `compare_fx_rates` produces on `fxSix`: five displayed
institutions, but average 21/6 = 3.5 and worst 1 computed over all six. -/
def cmpSix : FxComparison :=
  { displayed := [("B1", 6), ("B2", 5), ("B3", 4), ("B4", 3), ("B5", 2)],
    average := 7/2, best := 6, worst := 1 }

/-- A zero-balance account (for the C10 witness). -/
def acctZero : Account :=
  { user_id := 3, bank := "BankZ", account_id := "ACC1", account_status := "ACTIVE",
    account_currency := "JOD", available_balance := some 0 }

/-- A store holding only `acctZero`. -/
def dbZero : DB := { users := [], accounts := [acctZero], fxrates := [], chat := [] }

/-- Two stored messages (for the C5 witness). -/
def rowsW : List ChatRow :=
  [ { user_id := 1, message_type := "user", content := "hey there", session_id := "s", timestamp := 10 },
    { user_id := 1, message_type := "assistant", content := "hello back", session_id := "s", timestamp := 11 } ]

/-! ### Theorems -/

/-- C8: the classifier equals the spec-side disjunction. -/
theorem greeting_classifier_matches_spec (p : String) :
    is_greeting_message p = greetingSpecB p := by
  simp only [is_greeting_message, greetingSpecB]
  rw [Bool.or_comm (greetingWords.any fun w => startsWithStr (pyStrip (pyLower p)) w)]

theorem sortDescBy_pairwise {α β : Type} [LinearOrder β] (f : α → β) (l : List α) :
    (sortDescBy f l).Pairwise (fun a b => f b ≤ f a) := by
  have h := @List.sorted_mergeSort α (fun a b : α => decide (f b ≤ f a))
    (fun a b c hab hbc => by
      simp only [decide_eq_true_eq] at *
      exact le_trans hbc hab)
    (fun a b => by
      simp only [Bool.or_eq_true, decide_eq_true_eq]
      exact le_total (f b) (f a))
    l
  exact h.imp (by simp)

theorem sortDescBy_perm {α β : Type} [LinearOrder β] (f : α → β) (l : List α) :
    (sortDescBy f l).Perm l :=
  List.mergeSort_perm l _

theorem mem_sortDescBy {α β : Type} [LinearOrder β] {f : α → β} {l : List α} {a : α} :
    a ∈ sortDescBy f l ↔ a ∈ l :=
  List.mem_mergeSort

/-- C5: `load_memory_variables` returns at most 5 messages, drawn from the
rows of the given `(user_id, session_id)` pair, in ascending-timestamp
(oldest-first) order; when no row matches it returns the empty list (and,
being a total function, it cannot raise); every matching row it leaves out
is no newer than every row it selected. -/
theorem load_recent_bounded_chronological (rows : List ChatRow) (uid : Nat) (sid : String) :
    (load_memory_variables rows uid sid).length ≤ 5
    ∧ (selectedRows rows uid sid).Pairwise (fun a b => a.timestamp ≤ b.timestamp)
    ∧ (∀ r ∈ selectedRows rows uid sid, r.user_id = uid ∧ r.session_id = sid)
    ∧ (chatMatches rows uid sid = [] → load_memory_variables rows uid sid = [])
    ∧ (∀ r ∈ chatMatches rows uid sid, r ∉ selectedRows rows uid sid →
        ∀ s ∈ selectedRows rows uid sid, r.timestamp ≤ s.timestamp) := by
  have hpw : (recentDesc rows uid sid).Pairwise
      (fun a b => b.timestamp ≤ a.timestamp) :=
    sortDescBy_pairwise (fun r => r.timestamp) (chatMatches rows uid sid)
  refine ⟨?_, ?_, ?_, ?_, ?_⟩
  · calc (load_memory_variables rows uid sid).length
        ≤ (selectedRows rows uid sid).length :=
          List.length_filterMap_le _ _
      _ ≤ 5 := by
          simp only [selectedRows, List.length_reverse, List.length_take]
          exact Nat.min_le_left _ _
  · rw [selectedRows, List.pairwise_reverse]
    exact List.Pairwise.sublist (List.take_sublist 5 _) hpw
  · intro r hr
    rw [selectedRows, List.mem_reverse] at hr
    have hr' : r ∈ chatMatches rows uid sid :=
      mem_sortDescBy.mp (List.mem_of_mem_take hr)
    simp only [chatMatches, List.mem_filter, Bool.and_eq_true, beq_iff_eq] at hr'
    exact hr'.2
  · intro h
    simp [load_memory_variables, selectedRows, recentDesc, sortDescBy, h]
  · intro r hr hnot s hs
    have hrL : r ∈ recentDesc rows uid sid := mem_sortDescBy.mpr hr
    rw [selectedRows, List.mem_reverse] at hnot hs
    have hsplit := List.take_append_drop 5 (recentDesc rows uid sid)
    have hdrop : r ∈ (recentDesc rows uid sid).drop 5 := by
      rcases (List.mem_append.mp (hsplit ▸ hrL)) with h | h
      · exact absurd h hnot
      · exact h
    have hpw' := hsplit ▸ hpw
    exact (List.pairwise_append.mp hpw').2.2 s hs r hdrop

theorem alookup_bump_self (acc : List (String × ℚ)) (c : String) (v : ℚ) :
    alookup c (bump acc c v) = some ((alookup c acc).getD 0 + v) := by
  induction acc with
  | nil => simp [bump, alookup]
  | cons p rest ih =>
    obtain ⟨k, t⟩ := p
    by_cases h : k = c
    · simp [bump, alookup, h]
    · have hb : (k == c) = false := by simp [h]
      simp [bump, alookup, hb, ih]

theorem alookup_bump_other (acc : List (String × ℚ)) {c d : String} (h : d ≠ c) (v : ℚ) :
    alookup c (bump acc d v) = alookup c acc := by
  induction acc with
  | nil => simp [bump, alookup, h]
  | cons p rest ih =>
    obtain ⟨k, t⟩ := p
    by_cases h2 : k = d
    · subst h2
      have hb2 : (k == c) = false := by simp [h]
      simp [bump, alookup, hb2]
    · have hb : (k == d) = false := by simp [h2]
      simp [bump, alookup, hb, ih]

theorem leadsSeq_refl (l : List Char) : leadsSeq l l = true := by
  induction l with
  | nil => rfl
  | cons c t ih => simp [leadsSeq, ih]

theorem icontains_refl (s : String) : icontains s s = true := by
  unfold icontains containsStr hasSeq
  cases h : (pyLower s).data with
  | nil => rfl
  | cons c t => simp [leadsSeq_refl]

/-- A guarded fold equals the fold over the filtered list. -/
theorem foldl_guard_filter {α β : Type} (p : α → Bool) (f : β → α → β)
    (l : List α) (init : β) :
    l.foldl (fun acc a => if p a then f acc a else acc) init
      = (l.filter p).foldl f init := by
  induction l generalizing init with
  | nil => rfl
  | cons a t ih =>
    by_cases h : p a <;> simp [List.filter_cons, h, ih]

/-- The per-currency totals dict groups strictly by currency code: the
entry at key `c` is exactly the sum over the accounts whose currency is
`c`, independent of all other rows. -/
theorem alookup_currency_fold (l : List Account) (acc : List (String × ℚ)) (c : String) :
    alookup c (l.foldl
        (fun ac a => bump ac a.account_currency (a.available_balance.getD 0)) acc)
      = if (l.filter (fun a => a.account_currency == c)).isEmpty then alookup c acc
        else some ((alookup c acc).getD 0 +
          ((l.filter (fun a => a.account_currency == c)).map
            (fun a => a.available_balance.getD 0)).sum) := by
  induction l generalizing acc with
  | nil => simp
  | cons a t ih =>
    rw [List.foldl_cons, ih]
    by_cases h : a.account_currency = c
    · have hb : (a.account_currency == c) = true := by simp [h]
      rw [h, alookup_bump_self, List.filter_cons_of_pos (by simpa using hb)]
      by_cases ht : (t.filter (fun x => x.account_currency == c)).isEmpty
      · have ht2 := List.isEmpty_iff.mp ht
        rw [if_pos ht, ht2]
        simp
      · rw [if_neg ht, if_neg (by simp)]
        simp only [List.map_cons, List.sum_cons, Option.getD_some]
        congr 1
        ring
    · have hb : (a.account_currency == c) = false := by simp [h]
      rw [alookup_bump_other _ (fun hcc => h hcc) _,
        List.filter_cons_of_neg (by simpa using hb)]

theorem alookup_currency_totals (l : List Account) (c : String) :
    alookup c (currency_totals l)
      = if (l.filter (fun a => a.account_currency == c)).isEmpty then none
        else some (((l.filter (fun a => a.account_currency == c)).map
          (fun a => a.available_balance.getD 0)).sum) := by
  have h := alookup_currency_fold l [] c
  simp only [currency_totals]
  rw [h]
  by_cases he : (l.filter (fun a => a.account_currency == c)).isEmpty <;>
    simp [he, alookup]

theorem alookup_append {β : Type} (b : String) (l1 l2 : List (String × β)) :
    alookup b (l1 ++ l2)
      = match alookup b l1 with
        | some v => some v
        | none => alookup b l2 := by
  induction l1 with
  | nil => simp [alookup]
  | cons p t ih =>
    obtain ⟨k, v⟩ := p
    by_cases h : k = b
    · simp [alookup, h]
    · have hb : (k == b) = false := by simp [h]
      simp [alookup, hb, ih]

theorem latestFold_absorb (l : List FXR) (acc : List (String × FXR))
    {b : String} {v : FXR} (h : alookup b acc = some v) :
    alookup b (l.foldl latestStep acc) = some v := by
  induction l generalizing acc with
  | nil => exact h
  | cons r t ih =>
    rw [List.foldl_cons]
    unfold latestStep
    by_cases hr : (alookup r.bank acc).isSome = true
    · rw [if_pos hr]
      exact ih acc h
    · rw [if_neg hr]
      refine ih _ ?_
      rw [alookup_append, h]

theorem latestFold_head (l : List FXR) (acc : List (String × FXR))
    {b : String} (h : alookup b acc = none) :
    alookup b (l.foldl latestStep acc)
      = (l.filter (fun r => r.bank == b)).head? := by
  induction l generalizing acc with
  | nil => simpa [alookup] using h
  | cons r t ih =>
    rw [List.foldl_cons]
    unfold latestStep
    by_cases hrb : r.bank = b
    · subst hrb
      have hr : ¬ (alookup r.bank acc).isSome = true := by simp [h]
      rw [if_neg hr, List.filter_cons_of_pos (by simp), List.head?_cons]
      have hsome : alookup r.bank (acc ++ [(r.bank, r)]) = some r := by
        rw [alookup_append, h]
        simp [alookup]
      exact latestFold_absorb t _ hsome
    · have hbf : (r.bank == b) = false := by simp [hrb]
      rw [List.filter_cons_of_neg (by simp [hrb])]
      by_cases hr : (alookup r.bank acc).isSome = true
      · rw [if_pos hr]
        exact ih acc h
      · rw [if_neg hr]
        refine ih _ ?_
        rw [alookup_append, h]
        simp [alookup, hbf]

theorem alookup_latestPerBank (l : List FXR) (b : String) :
    alookup b (latestPerBank l) = (l.filter (fun r => r.bank == b)).head? :=
  latestFold_head l [] rfl

theorem latestFold_mem (l : List FXR) (acc : List (String × FXR))
    {p : String × FXR} (h : p ∈ l.foldl latestStep acc) :
    p ∈ acc ∨ (p.2 ∈ l ∧ p.1 = p.2.bank) := by
  induction l generalizing acc with
  | nil => exact Or.inl h
  | cons r t ih =>
    rw [List.foldl_cons] at h
    unfold latestStep at h
    by_cases hr : (alookup r.bank acc).isSome
    · simp only [hr, if_true] at h
      rcases ih acc h with h2 | h2
      · exact Or.inl h2
      · exact Or.inr ⟨List.mem_cons_of_mem _ h2.1, h2.2⟩
    · simp only [hr, Bool.false_eq_true, if_false] at h
      rcases ih _ h with h2 | h2
      · rcases List.mem_append.mp h2 with h3 | h3
        · exact Or.inl h3
        · simp only [List.mem_singleton] at h3
          subst h3
          exact Or.inr ⟨List.mem_cons_self _ _, rfl⟩
      · exact Or.inr ⟨List.mem_cons_of_mem _ h2.1, h2.2⟩

theorem mem_latestPerBank {l : List FXR} {p : String × FXR}
    (h : p ∈ latestPerBank l) : p.2 ∈ l ∧ p.1 = p.2.bank := by
  rcases latestFold_mem l [] h with h2 | h2
  · simp at h2
  · exact h2

theorem alookup_eq_none_iff {β : Type} (b : String) (A : List (String × β)) :
    alookup b A = none ↔ b ∉ A.map Prod.fst := by
  induction A with
  | nil => simp [alookup]
  | cons p t ih =>
    obtain ⟨k, v⟩ := p
    by_cases h : k = b
    · simp [alookup, h]
    · have hb : (k == b) = false := by simp [h]
      simp [alookup, hb, ih, Ne.symm h]

theorem latestFold_keys_nodup (l : List FXR) (acc : List (String × FXR))
    (h : (acc.map Prod.fst).Nodup) :
    ((l.foldl latestStep acc).map Prod.fst).Nodup := by
  induction l generalizing acc with
  | nil => exact h
  | cons r t ih =>
    rw [List.foldl_cons]
    unfold latestStep
    by_cases hr : (alookup r.bank acc).isSome = true
    · rw [if_pos hr]
      exact ih acc h
    · rw [if_neg hr]
      refine ih _ ?_
      have hnone : alookup r.bank acc = none := by
        cases hv : alookup r.bank acc with
        | none => rfl
        | some v => exact absurd (by simp [hv]) hr
      have hnotin : r.bank ∉ acc.map Prod.fst := (alookup_eq_none_iff _ _).mp hnone
      simp [List.nodup_append, h, hnotin]

theorem latestPerBank_keys_nodup (l : List FXR) :
    ((latestPerBank l).map Prod.fst).Nodup :=
  latestFold_keys_nodup l [] (by simp)

theorem alookup_of_mem_nodup {β : Type} {A : List (String × β)}
    (hnd : (A.map Prod.fst).Nodup) {b : String} {r : β} (h : (b, r) ∈ A) :
    alookup b A = some r := by
  induction A with
  | nil => simp at h
  | cons p t ih =>
    obtain ⟨k, v⟩ := p
    rw [List.map_cons, List.nodup_cons] at hnd
    rcases List.mem_cons.mp h with h2 | h2
    · have h3 : b = k ∧ r = v := by
        have := h2.symm
        simp only [Prod.mk.injEq] at this
        exact ⟨this.1.symm, this.2.symm⟩
      simp [alookup, h3.1, h3.2]
    · have hk : k ≠ b := by
        intro hkb
        subst hkb
        exact hnd.1 (by simpa using List.mem_map_of_mem Prod.fst h2)
      have hb : (k == b) = false := by simp [hk]
      simp [alookup, hb, ih hnd.2 h2]

/-- C1 (amended): for every call with a truthy user id (present and
nonzero) and a prompt classified as a greeting, `run_fintech_agent`
returns the deterministic templated greeting of
`get_personalized_greeting`, does not invoke the model, issues zero tool
calls, and neither reads nor writes conversation memory. -/
theorem greeting_shortcircuit_no_model (db : DB) (cfg : RunCfg) (oracle : ModelOracle)
    (fail : MemFail) (prompt : String) (u : Nat) (sid : Option String)
    (hu : u ≠ 0) (hg : is_greeting_message prompt = true) :
    (run_fintech_agent db cfg oracle fail prompt (some u) sid).response
        = get_personalized_greeting db cfg.hour u
    ∧ (run_fintech_agent db cfg oracle fail prompt (some u) sid).modelInvoked = false
    ∧ (run_fintech_agent db cfg oracle fail prompt (some u) sid).toolCalls = []
    ∧ (run_fintech_agent db cfg oracle fail prompt (some u) sid).memReads = 0
    ∧ (run_fintech_agent db cfg oracle fail prompt (some u) sid).chat = db.chat := by
  have hc : (truthyUid (some u) && is_greeting_message prompt) = true := by
    simp [truthyUid, hu, hg]
  simp [run_fintech_agent, hc]

/-- C1 (witness): a concrete run of the amended theorem at user id 1 and
prompt "hi". -/
theorem greeting_shortcircuit_no_model_witness :
    (1 : Nat) ≠ 0 ∧ is_greeting_message "hi" = true
    ∧ ((run_fintech_agent db0 cfg0 oracle0 MemFail.ok "hi" (some 1) none).response
          = get_personalized_greeting db0 cfg0.hour 1
      ∧ (run_fintech_agent db0 cfg0 oracle0 MemFail.ok "hi" (some 1) none).modelInvoked = false
      ∧ (run_fintech_agent db0 cfg0 oracle0 MemFail.ok "hi" (some 1) none).toolCalls = []
      ∧ (run_fintech_agent db0 cfg0 oracle0 MemFail.ok "hi" (some 1) none).memReads = 0
      ∧ (run_fintech_agent db0 cfg0 oracle0 MemFail.ok "hi" (some 1) none).chat = db0.chat) :=
  ⟨by decide, by decide,
    greeting_shortcircuit_no_model db0 cfg0 oracle0 MemFail.ok "hi" 1 none
      (by decide) (by decide)⟩

/-- C1 (counterexample): `user_id = 0` is present but Python-falsy
(`if user_id and ...`), so the greeting "hi" does NOT short-circuit: the
model is invoked, a tool call is issued, and the response is not the
templated greeting — refuting the claim for "present" user ids. -/
theorem greeting_shortcircuit_fails_for_zero_uid :
    (run_fintech_agent db0 cfg0 oracle0 MemFail.ok "hi" (some 0) none).modelInvoked = true
    ∧ (run_fintech_agent db0 cfg0 oracle0 MemFail.ok "hi" (some 0) none).toolCalls ≠ []
    ∧ (run_fintech_agent db0 cfg0 oracle0 MemFail.ok "hi" (some 0) none).response
        ≠ get_personalized_greeting db0 cfg0.hour 0
    ∧ is_greeting_message "hi" = true :=
  ⟨by decide, by decide, by decide, by decide⟩

/-- C9: with `user_id` absent the greeting short-circuit is never taken
(`greeted = false`, even for greeting prompts), conversation memory is
neither read (`memReads = 0`) nor written (the store is unchanged), the
model sees an empty history, and the model path is entered exactly when
the credential exists. -/
theorem anonymous_call_stateless (db : DB) (cfg : RunCfg) (oracle : ModelOracle)
    (fail : MemFail) (prompt : String) (sid : Option String) :
    (run_fintech_agent db cfg oracle fail prompt none sid).greeted = false
    ∧ (run_fintech_agent db cfg oracle fail prompt none sid).memReads = 0
    ∧ (run_fintech_agent db cfg oracle fail prompt none sid).chat = db.chat
    ∧ (run_fintech_agent db cfg oracle fail prompt none sid).history = []
    ∧ (run_fintech_agent db cfg oracle fail prompt none sid).modelInvoked
        = cfg.apiKey.isSome := by
  have hc : (truthyUid none && is_greeting_message prompt) = false := by
    simp [truthyUid]
  cases hk : cfg.apiKey with
  | none => simp [run_fintech_agent, hc, hk]
  | some k =>
    cases ho : oracle (buildContext []) prompt <;>
      simp [run_fintech_agent, hc, hk, truthyUid, ho]

/-- C6 (amended): for every non-greeting call with a truthy (present and
nonzero) user id whose model invocation succeeds, exactly the user
message (role "user") and then the assistant text (role "assistant") are
appended to the Memory Store, in that order; and for every persistence
failure mode the returned text is still the model output — persistence
errors are swallowed. -/
theorem persistence_appends_user_then_assistant (db : DB) (cfg : RunCfg)
    (oracle : ModelOracle) (prompt : String) (u : Nat) (sid : Option String)
    (k : String) (tcs : List ToolCall) (outp : String)
    (hu : u ≠ 0) (hng : is_greeting_message prompt = false)
    (hk : cfg.apiKey = some k)
    (ho : oracle (buildContext (historyFor db cfg u sid)) prompt
        = ModelResult.success tcs outp) :
    (run_fintech_agent db cfg oracle MemFail.ok prompt (some u) sid).response = outp
    ∧ (run_fintech_agent db cfg oracle MemFail.ok prompt (some u) sid).chat
        = db.chat ++ [mkRow u (sessionOf cfg sid) "user" prompt cfg.now,
                      mkRow u (sessionOf cfg sid) "assistant" outp cfg.now]
    ∧ ∀ fail : MemFail,
        (run_fintech_agent db cfg oracle fail prompt (some u) sid).response = outp := by
  have htr : truthyUid (some u) = true := by simp [truthyUid, hu]
  have hc : (truthyUid (some u) && is_greeting_message prompt) = false := by
    simp [htr, hng]
  refine ⟨?_, ?_, ?_⟩
  · simp [run_fintech_agent, hc, hk, htr, hng, ho]
  · simp [run_fintech_agent, hc, hk, htr, hng, ho, save_context]
  · intro fail
    simp [run_fintech_agent, hc, hk, htr, hng, ho]

/-- C6 (witness): a concrete non-greeting run at user id 1 appends the
two rows in order and returns the model text under every failure mode. -/
theorem persistence_appends_user_then_assistant_witness :
    (1 : Nat) ≠ 0 ∧ is_greeting_message "balance" = false
    ∧ cfg0.apiKey = some "KEY"
    ∧ ((run_fintech_agent db0 cfg0 oracle0 MemFail.ok "balance" (some 1) none).response
          = "MODEL OUTPUT"
      ∧ (run_fintech_agent db0 cfg0 oracle0 MemFail.ok "balance" (some 1) none).chat
          = db0.chat ++ [mkRow 1 (sessionOf cfg0 none) "user" "balance" cfg0.now,
                         mkRow 1 (sessionOf cfg0 none) "assistant" "MODEL OUTPUT" cfg0.now]
      ∧ ∀ fail : MemFail,
          (run_fintech_agent db0 cfg0 oracle0 fail "balance" (some 1) none).response
            = "MODEL OUTPUT") :=
  ⟨by decide, by decide, rfl,
    persistence_appends_user_then_assistant db0 cfg0 oracle0 "balance" 1 none "KEY"
      [("get_user_balance", "user_id=0")] "MODEL OUTPUT"
      (by decide) (by decide) rfl rfl⟩

/-- C6 (counterexample): at `user_id = 0` (present but Python-falsy) a
non-greeting call that produces a model response appends NOTHING — the
store stays empty instead of receiving the two messages the claim
requires. -/
theorem persistence_skipped_for_zero_uid :
    (run_fintech_agent db0 cfg0 oracle0 MemFail.ok "balance" (some 0) none).chat = []
    ∧ (run_fintech_agent db0 cfg0 oracle0 MemFail.ok "balance" (some 0) none).response
        = "MODEL OUTPUT"
    ∧ db0.chat ++ [mkRow 0 (sessionOf cfg0 none) "user" "balance" cfg0.now,
        mkRow 0 (sessionOf cfg0 none) "assistant" "MODEL OUTPUT" cfg0.now]
      ≠ (run_fintech_agent db0 cfg0 oracle0 MemFail.ok "balance" (some 0) none).chat :=
  ⟨by decide, by decide, by decide⟩

/-- C7: `run_fintech_agent` is a total function into text (it never
propagates an exception), and the top-level handler classifies failures:
a missing `GOOGLE_API_KEY` credential yields the distinct configuration
message; a model exception is classified by `classifyError`, which maps
texts mentioning `GOOGLE_API_KEY` to the configuration message, otherwise
texts mentioning "rate limit" (case-insensitively) to the distinct
try-again message, and every other text to a generic error string echoing
the exception text. -/
theorem orchestrator_error_taxonomy (db : DB) (cfg : RunCfg) (oracle : ModelOracle)
    (fail : MemFail) (prompt : String) (uid : Option Nat) (sid : Option String)
    (msg : String)
    (hng : (truthyUid uid && is_greeting_message prompt) = false) :
    (cfg.apiKey = none →
      (run_fintech_agent db cfg oracle fail prompt uid sid).response
        = "❌ API key error. Please check configuration.")
    ∧ (∀ k, cfg.apiKey = some k →
        oracle (buildContext (if truthyUid uid
            then historyFor db cfg (uid.getD 0) sid else [])) prompt
          = ModelResult.failure msg →
        (run_fintech_agent db cfg oracle fail prompt uid sid).response
          = classifyError msg)
    ∧ (containsStr msg "GOOGLE_API_KEY" = true →
        classifyError msg = "❌ API key error. Please check configuration.")
    ∧ (containsStr msg "GOOGLE_API_KEY" = false →
        containsStr (pyLower msg) "rate limit" = true →
        classifyError msg = "⚠️ Rate limit exceeded. Please try again shortly.")
    ∧ (containsStr msg "GOOGLE_API_KEY" = false →
        containsStr (pyLower msg) "rate limit" = false →
        classifyError msg = "❌ Error: " ++ msg) := by
  refine ⟨?_, ?_, ?_, ?_, ?_⟩
  · intro hk
    simp only [run_fintech_agent, hng, Bool.false_eq_true, if_false, hk]
    decide
  · intro k hk ho
    simp [run_fintech_agent, hng, hk, ho]
  · intro h1
    simp [classifyError, h1]
  · intro h1 h2
    simp [classifyError, h1, h2]
  · intro h1 h2
    simp [classifyError, h1, h2]

/-- C7 (witness): with the credential absent and a rate-limit message,
the instantiated taxonomy holds at a concrete call. -/
theorem orchestrator_error_taxonomy_witness :
    (cfgNoKey.apiKey = none →
      (run_fintech_agent db0 cfgNoKey oracleRate MemFail.ok "balance" none none).response
        = "❌ API key error. Please check configuration.")
    ∧ (∀ k, cfgNoKey.apiKey = some k →
        oracleRate (buildContext (if truthyUid none
            then historyFor db0 cfgNoKey ((none : Option Nat).getD 0) none else []))
            "balance"
          = ModelResult.failure "429 Rate Limit exceeded for model" →
        (run_fintech_agent db0 cfgNoKey oracleRate MemFail.ok "balance" none none).response
          = classifyError "429 Rate Limit exceeded for model")
    ∧ (containsStr "429 Rate Limit exceeded for model" "GOOGLE_API_KEY" = true →
        classifyError "429 Rate Limit exceeded for model"
          = "❌ API key error. Please check configuration.")
    ∧ (containsStr "429 Rate Limit exceeded for model" "GOOGLE_API_KEY" = false →
        containsStr (pyLower "429 Rate Limit exceeded for model") "rate limit" = true →
        classifyError "429 Rate Limit exceeded for model"
          = "⚠️ Rate limit exceeded. Please try again shortly.")
    ∧ (containsStr "429 Rate Limit exceeded for model" "GOOGLE_API_KEY" = false →
        containsStr (pyLower "429 Rate Limit exceeded for model") "rate limit" = false →
        classifyError "429 Rate Limit exceeded for model"
          = "❌ Error: " ++ "429 Rate Limit exceeded for model") :=
  orchestrator_error_taxonomy db0 cfgNoKey oracleRate MemFail.ok "balance" none none
    "429 Rate Limit exceeded for model" (by decide)

/-- C2: aggregations never sum across mismatched currencies.  (i) The
entry of `get_total_balance`'s per-currency dict at a currency `c` is
exactly the sum of that user's non-null balances whose currency is `c`
(absent when no such account exists), so no other currency contributes;
(ii) every rate entering `compare_fx_rates`' value list belongs to a
stored rate whose source/target equal the (upper-cased) requested pair;
(iii) the reported average/best/worst are computed over exactly that
value list. -/
theorem aggregation_groups_by_currency (db : DB) (uid : Nat) (c : String)
    (fx : List FXR) (src tgt : String) :
    alookup c (currency_totals (balAccounts db uid))
      = (if ((balAccounts db uid).filter (fun a => a.account_currency == c)).isEmpty
         then none
         else some ((((balAccounts db uid).filter
              (fun a => a.account_currency == c)).map
            (fun a => a.available_balance.getD 0)).sum))
    ∧ (balAccounts db uid ≠ [] →
        get_total_balance db uid = some (currency_totals (balAccounts db uid)))
    ∧ (∀ q ∈ ratesValues fx src tgt, ∃ r, r ∈ fx
        ∧ r.source_currency = pyUpper src ∧ r.target_currency = pyUpper tgt
        ∧ q = r.conversion_value)
    ∧ (∀ cmp, compare_fx_rates fx src tgt = some cmp →
        cmp.average = (ratesValues fx src tgt).sum / ((ratesValues fx src tgt).length : ℚ)
        ∧ cmp.best = listMax (ratesValues fx src tgt)
        ∧ cmp.worst = listMin (ratesValues fx src tgt)) := by
  refine ⟨alookup_currency_totals _ c, ?_, ?_, ?_⟩
  · intro h
    simp only [get_total_balance]
    rw [if_neg (by simpa [List.isEmpty_iff] using h)]
  · intro q hq
    simp only [ratesValues] at hq
    obtain ⟨p, hp, rfl⟩ := List.mem_map.mp hq
    simp only [sortedRates] at hp
    have hp2 := mem_latestPerBank (mem_sortDescBy.mp hp)
    have hp3 : p.2 ∈ fxPair fx src tgt := by
      have := hp2.1
      simp only [fxByDateDesc] at this
      exact mem_sortDescBy.mp this
    have hp4 := List.mem_filter.mp hp3
    simp only [Bool.and_eq_true, beq_iff_eq] at hp4
    exact ⟨p.2, hp4.1, hp4.2.1, hp4.2.2, rfl⟩
  · intro cmp hcmp
    simp only [compare_fx_rates] at hcmp
    split at hcmp
    · cases hcmp
    · cases hcmp
      exact ⟨rfl, rfl, rfl⟩

/-- C2 (witness): the aggregation theorem instantiated at a concrete
store and currency pair. -/
theorem aggregation_groups_by_currency_witness :
    alookup "JOD" (currency_totals (balAccounts db0 3))
      = (if ((balAccounts db0 3).filter (fun a => a.account_currency == "JOD")).isEmpty
         then none
         else some ((((balAccounts db0 3).filter
              (fun a => a.account_currency == "JOD")).map
            (fun a => a.available_balance.getD 0)).sum))
    ∧ (balAccounts db0 3 ≠ [] →
        get_total_balance db0 3 = some (currency_totals (balAccounts db0 3)))
    ∧ (∀ q ∈ ratesValues db0.fxrates "USD" "JOD", ∃ r, r ∈ db0.fxrates
        ∧ r.source_currency = pyUpper "USD" ∧ r.target_currency = pyUpper "JOD"
        ∧ q = r.conversion_value)
    ∧ (∀ cmp, compare_fx_rates db0.fxrates "USD" "JOD" = some cmp →
        cmp.average = (ratesValues db0.fxrates "USD" "JOD").sum
            / ((ratesValues db0.fxrates "USD" "JOD").length : ℚ)
        ∧ cmp.best = listMax (ratesValues db0.fxrates "USD" "JOD")
        ∧ cmp.worst = listMin (ratesValues db0.fxrates "USD" "JOD")) :=
  aggregation_groups_by_currency db0 3 "JOD" db0.fxrates "USD" "JOD"

/-- C3: `convert_currency` rejects every non-positive amount with the
fixed rejection text before touching the store; for a positive amount
whose (upper-cased, optionally institution-filtered) query has a head
rate `r`, it returns the amount times `r`'s value rounded half-up to two
decimals, and `r` is a matching rate of maximal effective date; when the
query matches nothing it returns the "No exchange rate found" text. -/
theorem convert_currency_contract (fx : List FXR) (amount : ℚ) (src tgt : String)
    (bank : Option String) :
    (amount ≤ 0 →
      convert_currency fx amount src tgt bank
        = ConvOutcome.rejected "Please provide a positive amount to convert")
    ∧ (∀ r, 0 < amount → (convSorted fx src tgt bank).head? = some r →
        convert_currency fx amount src tgt bank
            = ConvOutcome.converted (roundHalfUp2 (amount * r.conversion_value)) r
        ∧ r ∈ convQuery fx src tgt bank
        ∧ (∀ q ∈ convQuery fx src tgt bank, q.effective_date ≤ r.effective_date))
    ∧ (0 < amount → convQuery fx src tgt bank = [] →
        convert_currency fx amount src tgt bank
          = ConvOutcome.noRate ("No exchange rate found for " ++ src ++ "/" ++ tgt)) := by
  refine ⟨?_, ?_, ?_⟩
  · intro h
    simp [convert_currency, h]
  · intro r hpos hr
    have hneg : ¬ amount ≤ 0 := not_le.mpr hpos
    have hpw : (convSorted fx src tgt bank).Pairwise
        (fun a b => b.effective_date ≤ a.effective_date) :=
      sortDescBy_pairwise (fun x => x.effective_date) (convQuery fx src tgt bank)
    refine ⟨by simp [convert_currency, hneg, hr], ?_, ?_⟩
    · cases hcs : convSorted fx src tgt bank with
      | nil => rw [hcs] at hr; cases hr
      | cons a t =>
        rw [hcs] at hr
        have har : a = r := by simpa using hr
        have : r ∈ convSorted fx src tgt bank := by
          rw [hcs, ← har]
          exact List.mem_cons_self _ _
        simpa only [convSorted, mem_sortDescBy] using this
    · intro q hq
      cases hcs : convSorted fx src tgt bank with
      | nil => rw [hcs] at hr; cases hr
      | cons a t =>
        rw [hcs] at hr hpw
        have har : a = r := by simpa using hr
        have hq2 : q ∈ a :: t := by
          rw [← hcs]
          simpa only [convSorted, mem_sortDescBy] using hq
        rcases List.mem_cons.mp hq2 with h2 | h2
        · rw [h2, har]
        · exact har ▸ (List.pairwise_cons.mp hpw).1 q h2
  · intro hpos hempty
    have hcs : convSorted fx src tgt bank = [] := by
      simp [convSorted, sortDescBy, hempty]
    simp [convert_currency, not_le.mpr hpos, hcs]

/-- C3 (witness): at amount 100 and rate 0.709 the conversion returns
70.90 (round-half-up to 2 decimals); at amount 0 it returns the fixed
rejection text. -/
theorem convert_currency_contract_witness :
    (0:ℚ) < 100 ∧ (convSorted fxConv "usd" "jod" none).head? = some rateW
    ∧ (convert_currency fxConv 100 "usd" "jod" none
        = ConvOutcome.converted (roundHalfUp2 (100 * rateW.conversion_value)) rateW
      ∧ rateW ∈ convQuery fxConv "usd" "jod" none
      ∧ (∀ q ∈ convQuery fxConv "usd" "jod" none,
          q.effective_date ≤ rateW.effective_date))
    ∧ roundHalfUp2 (100 * rateW.conversion_value) = 709/10
    ∧ (0:ℚ) ≤ 0
    ∧ convert_currency fxConv 0 "usd" "jod" none
        = ConvOutcome.rejected "Please provide a positive amount to convert" := by
  have hq : convQuery fxConv "usd" "jod" none = [rateW] := rfl
  have hhead : (convSorted fxConv "usd" "jod" none).head? = some rateW := by
    simp [convSorted, hq, sortDescBy]
  have hround : roundHalfUp2 (100 * rateW.conversion_value) = 709/10 := by
    have hval : (100 : ℚ) * rateW.conversion_value = 709/10 := by
      norm_num [rateW]
    have hfl : ⌊(709:ℚ)/10 * 100 + 1/2⌋ = (7090 : ℤ) := by
      rw [Int.floor_eq_iff]
      constructor <;> norm_num
    rw [roundHalfUp2, hval, if_pos (by norm_num), hfl]
    norm_num
  refine ⟨by norm_num, hhead, ?_, hround, le_refl 0, ?_⟩
  · exact (convert_currency_contract fxConv 100 "usd" "jod" none).2.1 rateW
      (by norm_num) hhead
  · exact (convert_currency_contract fxConv 0 "usd" "jod" none).1 (le_refl 0)

/-- C4 (amended): for every pair with at least one stored rate,
`compare_fx_rates` retains exactly one rate per institution — the head,
per bank, of the stably date-descending rate list, hence a maximal-dated
rate with date ties broken by database insertion order — lists them in
descending rate order, displays at most 5, and reports best, worst and
average computed over ALL retained rates (`rates_values`), not merely the
displayed five. -/
theorem fx_comparison_retains_latest_per_bank (fx : List FXR) (src tgt : String)
    (cmp : FxComparison) (h : compare_fx_rates fx src tgt = some cmp) :
    ((sortedRates fx src tgt).map Prod.fst).Nodup
    ∧ (∀ b, alookup b (latestPerBank (fxByDateDesc fx src tgt))
        = ((fxByDateDesc fx src tgt).filter (fun r => r.bank == b)).head?)
    ∧ (∀ p ∈ sortedRates fx src tgt, p.2 ∈ fxPair fx src tgt ∧ p.1 = p.2.bank
        ∧ (∀ q ∈ fxPair fx src tgt, q.bank = p.2.bank →
            q.effective_date ≤ p.2.effective_date))
    ∧ (sortedRates fx src tgt).Pairwise
        (fun a b => b.2.conversion_value ≤ a.2.conversion_value)
    ∧ cmp.displayed
        = ((sortedRates fx src tgt).take 5).map (fun p => (p.1, p.2.conversion_value))
    ∧ cmp.displayed.length ≤ 5
    ∧ cmp.average = (ratesValues fx src tgt).sum / ((ratesValues fx src tgt).length : ℚ)
    ∧ cmp.best = listMax (ratesValues fx src tgt)
    ∧ cmp.worst = listMin (ratesValues fx src tgt) := by
  have hfields : cmp.displayed
        = ((sortedRates fx src tgt).take 5).map (fun p => (p.1, p.2.conversion_value))
      ∧ cmp.average = (ratesValues fx src tgt).sum / ((ratesValues fx src tgt).length : ℚ)
      ∧ cmp.best = listMax (ratesValues fx src tgt)
      ∧ cmp.worst = listMin (ratesValues fx src tgt) := by
    simp only [compare_fx_rates] at h
    split at h
    · cases h
    · cases h
      exact ⟨rfl, rfl, rfl, rfl⟩
  refine ⟨?_, ?_, ?_, ?_, hfields.1, ?_, hfields.2.1, hfields.2.2.1, hfields.2.2.2⟩
  · have hperm := (sortDescBy_perm (fun p : String × FXR => p.2.conversion_value)
      (latestPerBank (fxByDateDesc fx src tgt))).map Prod.fst
    simp only [sortedRates]
    exact hperm.nodup_iff.mpr (latestPerBank_keys_nodup _)
  · intro b
    exact alookup_latestPerBank _ b
  · intro p hp
    simp only [sortedRates] at hp
    have hpl : p ∈ latestPerBank (fxByDateDesc fx src tgt) := mem_sortDescBy.mp hp
    have hmem := mem_latestPerBank hpl
    have hpfx : p.2 ∈ fxPair fx src tgt := by
      have h2 := hmem.1
      simp only [fxByDateDesc] at h2
      exact mem_sortDescBy.mp h2
    refine ⟨hpfx, hmem.2, ?_⟩
    have hlk : alookup p.1 (latestPerBank (fxByDateDesc fx src tgt)) = some p.2 :=
      alookup_of_mem_nodup (latestPerBank_keys_nodup _) hpl
    have hhead : ((fxByDateDesc fx src tgt).filter
        (fun r => r.bank == p.1)).head? = some p.2 :=
      (alookup_latestPerBank (fxByDateDesc fx src tgt) p.1).symm.trans hlk
    intro q hq hqb
    have hpw : (fxByDateDesc fx src tgt).Pairwise
        (fun a b => b.effective_date ≤ a.effective_date) := by
      simp only [fxByDateDesc]
      exact sortDescBy_pairwise _ _
    have hpwf := hpw.filter (fun r => r.bank == p.1)
    have hqL : q ∈ fxByDateDesc fx src tgt := by
      simp only [fxByDateDesc]
      exact mem_sortDescBy.mpr hq
    have hqf : q ∈ (fxByDateDesc fx src tgt).filter (fun r => r.bank == p.1) :=
      List.mem_filter.mpr ⟨hqL, by simp [hqb, hmem.2]⟩
    cases hfl : (fxByDateDesc fx src tgt).filter (fun r => r.bank == p.1) with
    | nil => rw [hfl] at hqf; cases hqf
    | cons a t =>
      rw [hfl] at hhead hqf hpwf
      have ha : a = p.2 := by simpa using hhead
      rcases List.mem_cons.mp hqf with h2 | h2
      · rw [h2, ha]
      · exact ha ▸ (List.pairwise_cons.mp hpwf).1 q h2
  · simp only [sortedRates]
    exact sortDescBy_pairwise _ _
  · rw [hfields.1]
    calc (((sortedRates fx src tgt).take 5).map
          (fun p => (p.1, p.2.conversion_value))).length
        = ((sortedRates fx src tgt).take 5).length := List.length_map _ _
      _ ≤ 5 := by
          rw [List.length_take]
          exact Nat.min_le_left _ _

/-- C4 (witness): the amended theorem instantiated on the one-rate store. -/
theorem fx_comparison_retains_latest_per_bank_witness :
    ((sortedRates fxOne "USD" "JOD").map Prod.fst).Nodup
    ∧ (∀ b, alookup b (latestPerBank (fxByDateDesc fxOne "USD" "JOD"))
        = ((fxByDateDesc fxOne "USD" "JOD").filter (fun r => r.bank == b)).head?)
    ∧ (∀ p ∈ sortedRates fxOne "USD" "JOD", p.2 ∈ fxPair fxOne "USD" "JOD"
        ∧ p.1 = p.2.bank
        ∧ (∀ q ∈ fxPair fxOne "USD" "JOD", q.bank = p.2.bank →
            q.effective_date ≤ p.2.effective_date))
    ∧ (sortedRates fxOne "USD" "JOD").Pairwise
        (fun a b => b.2.conversion_value ≤ a.2.conversion_value)
    ∧ cmpOne.displayed
        = ((sortedRates fxOne "USD" "JOD").take 5).map
            (fun p => (p.1, p.2.conversion_value))
    ∧ cmpOne.displayed.length ≤ 5
    ∧ cmpOne.average = (ratesValues fxOne "USD" "JOD").sum
        / ((ratesValues fxOne "USD" "JOD").length : ℚ)
    ∧ cmpOne.best = listMax (ratesValues fxOne "USD" "JOD")
    ∧ cmpOne.worst = listMin (ratesValues fxOne "USD" "JOD") := by
  have h2 : fxByDateDesc fxOne "USD" "JOD" = fxOne := by
    simp only [fxByDateDesc, show fxPair fxOne "USD" "JOD" = fxOne from rfl, sortDescBy]
    simp [fxOne]
  have h4 : sortedRates fxOne "USD" "JOD" = [("BankA", rOne)] := by
    simp only [sortedRates, h2, show latestPerBank fxOne = [("BankA", rOne)] from rfl,
      sortDescBy]
    simp
  have hW : compare_fx_rates fxOne "USD" "JOD" = some cmpOne := by
    simp only [compare_fx_rates, ratesValues, h2, h4]
    rw [if_neg (by simp [fxOne])]
    simp only [cmpOne, Option.some.injEq, FxComparison.mk.injEq]
    refine ⟨rfl, by norm_num [rOne], rfl, rfl⟩
  exact fx_comparison_retains_latest_per_bank fxOne "USD" "JOD" cmpOne hW

/-- C4 (counterexample): with six institutions the displayed set is the
top five, yet the reported worst is 1 (the undisplayed sixth rate) while
the worst of the displayed set is 2, and the reported average 3.5 differs
from the displayed-set average 4 — so best/worst/average are NOT computed
over the displayed set, refuting the claim as stated. -/
theorem fx_report_not_over_displayed_set :
    compare_fx_rates fxSix "USD" "JOD" = some cmpSix
    ∧ cmpSix.displayed.length = 5
    ∧ cmpSix.worst = 1
    ∧ listMin (cmpSix.displayed.map Prod.snd) = 2
    ∧ cmpSix.worst ≠ listMin (cmpSix.displayed.map Prod.snd)
    ∧ cmpSix.average ≠ (cmpSix.displayed.map Prod.snd).sum
        / ((cmpSix.displayed.map Prod.snd).length : ℚ) := by
  have h2 : fxByDateDesc fxSix "USD" "JOD" = fxSix := by
    simp only [fxByDateDesc, show fxPair fxSix "USD" "JOD" = fxSix from rfl, sortDescBy]
    exact List.mergeSort_of_sorted (by decide)
  have h3 : latestPerBank fxSix
      = [("B1", r61), ("B2", r62), ("B3", r63), ("B4", r64), ("B5", r65), ("B6", r66)] :=
    rfl
  have h4 : sortedRates fxSix "USD" "JOD"
      = [("B1", r61), ("B2", r62), ("B3", r63), ("B4", r64), ("B5", r65), ("B6", r66)] := by
    simp only [sortedRates, h2, h3, sortDescBy]
    exact List.mergeSort_of_sorted (by decide)
  have hW : compare_fx_rates fxSix "USD" "JOD" = some cmpSix := by
    simp only [compare_fx_rates, ratesValues, h2, h4]
    rw [if_neg (by simp [fxSix])]
    simp only [cmpSix, Option.some.injEq, FxComparison.mk.injEq]
    refine ⟨by decide, by norm_num [r61, r62, r63, r64, r65, r66],
      by decide, by decide⟩
  refine ⟨hW, by decide, by decide, by decide, by decide, by norm_num [cmpSix]⟩

/-- C10: an account whose `available_balance` is exactly 0 is Python-falsy,
so the balance tools report it as "Not available" (`balance = none` in
`get_user_balance`'s line), omit its balance line (`get_user_accounts`),
and exclude it from every per-currency total (`get_balance_summary`,
`check_account_balance`) — while the null-tested count "Accounts with
Balance Data" still includes it. -/
theorem zero_balance_reported_unavailable (db : DB) (uid : Nat) (a : Account)
    (ha : a ∈ userAccounts db uid) (hz : a.available_balance = some 0) :
    (toBalLine a).balance = none
    ∧ (toAcctLine a).balance = none
    ∧ get_user_balance db uid none = some ((userAccounts db uid).map toBalLine)
    ∧ toBalLine a ∈ (userAccounts db uid).map toBalLine
    ∧ get_balance_summary db uid = some
        { total := (userAccounts db uid).length,
          active := ((userAccounts db uid).filter
            (fun x => x.account_status == "ACTIVE")).length,
          withBalance := ((userAccounts db uid).filter
            (fun x => x.available_balance.isSome)).length,
          perCurrency := currencyData (userAccounts db uid),
          statusCounts := (userAccounts db uid).foldl
            (fun acc x => bumpCount acc (statusLabel x)) [] }
    ∧ a ∈ (userAccounts db uid).filter (fun x => x.available_balance.isSome)
    ∧ currencyData (userAccounts db uid)
        = ((userAccounts db uid).filter balTruthy).foldl
            (fun acc x => bumpAgg acc x.account_currency (x.available_balance.getD 0) x.bank) []
    ∧ a ∉ (userAccounts db uid).filter balTruthy
    ∧ check_account_balance db uid a.bank
        = some ((bankAccounts db uid a.bank).map toBalLine,
                currency_totals ((bankAccounts db uid a.bank).filter balTruthy))
    ∧ toBalLine a ∈ (bankAccounts db uid a.bank).map toBalLine
    ∧ a ∉ (bankAccounts db uid a.bank).filter balTruthy := by
  have hbt : balTruthy a = false := by simp [balTruthy, hz]
  have hne : userAccounts db uid ≠ [] := List.ne_nil_of_mem ha
  have haa : a ∈ db.accounts ∧ (a.user_id == uid) = true := by
    simpa [userAccounts, List.mem_filter] using ha
  have hab : a ∈ bankAccounts db uid a.bank :=
    List.mem_filter.mpr ⟨haa.1, by simp [haa.2, icontains_refl]⟩
  have hbne : bankAccounts db uid a.bank ≠ [] := List.ne_nil_of_mem hab
  refine ⟨?_, ?_, ?_, ?_, ?_, ?_, ?_, ?_, ?_, ?_, ?_⟩
  · simp [toBalLine, shownBalance, hbt]
  · simp [toAcctLine, shownBalance, hbt]
  · simp only [get_user_balance]
    rw [if_neg (by simpa [List.isEmpty_iff] using hne)]
  · exact List.mem_map_of_mem _ ha
  · simp only [get_balance_summary]
    rw [if_neg (by simpa [List.isEmpty_iff] using hne)]
  · exact List.mem_filter.mpr ⟨ha, by simp [hz]⟩
  · simp only [currencyData]
    exact foldl_guard_filter balTruthy _ _ []
  · intro hmem
    have := (List.mem_filter.mp hmem).2
    rw [hbt] at this
    cases this
  · simp only [check_account_balance]
    rw [if_neg (by simpa [List.isEmpty_iff] using hbne)]
    have ht : truthyTotals (bankAccounts db uid a.bank)
        = currency_totals ((bankAccounts db uid a.bank).filter balTruthy) := by
      simp only [truthyTotals, currency_totals]
      exact foldl_guard_filter balTruthy _ _ []
    rw [ht]
  · exact List.mem_map_of_mem _ hab
  · intro hmem
    have := (List.mem_filter.mp hmem).2
    rw [hbt] at this
    cases this

/-- C10 (witness): the zero-balance behaviour at a concrete store. -/
theorem zero_balance_reported_unavailable_witness :
    (toBalLine acctZero).balance = none
    ∧ (toAcctLine acctZero).balance = none
    ∧ get_user_balance dbZero 3 none = some ((userAccounts dbZero 3).map toBalLine)
    ∧ toBalLine acctZero ∈ (userAccounts dbZero 3).map toBalLine
    ∧ get_balance_summary dbZero 3 = some
        { total := (userAccounts dbZero 3).length,
          active := ((userAccounts dbZero 3).filter
            (fun x => x.account_status == "ACTIVE")).length,
          withBalance := ((userAccounts dbZero 3).filter
            (fun x => x.available_balance.isSome)).length,
          perCurrency := currencyData (userAccounts dbZero 3),
          statusCounts := (userAccounts dbZero 3).foldl
            (fun acc x => bumpCount acc (statusLabel x)) [] }
    ∧ acctZero ∈ (userAccounts dbZero 3).filter (fun x => x.available_balance.isSome)
    ∧ currencyData (userAccounts dbZero 3)
        = ((userAccounts dbZero 3).filter balTruthy).foldl
            (fun acc x => bumpAgg acc x.account_currency (x.available_balance.getD 0) x.bank) []
    ∧ acctZero ∉ (userAccounts dbZero 3).filter balTruthy
    ∧ check_account_balance dbZero 3 acctZero.bank
        = some ((bankAccounts dbZero 3 acctZero.bank).map toBalLine,
                currency_totals ((bankAccounts dbZero 3 acctZero.bank).filter balTruthy))
    ∧ toBalLine acctZero ∈ (bankAccounts dbZero 3 acctZero.bank).map toBalLine
    ∧ acctZero ∉ (bankAccounts dbZero 3 acctZero.bank).filter balTruthy :=
  zero_balance_reported_unavailable dbZero 3 acctZero (by decide) rfl

/-- C5 (witness): the bounded-chronological-load theorem instantiated at a
concrete store and session. -/
theorem load_recent_bounded_chronological_witness :
    (load_memory_variables rowsW 1 "s").length ≤ 5
    ∧ (selectedRows rowsW 1 "s").Pairwise (fun a b => a.timestamp ≤ b.timestamp)
    ∧ (∀ r ∈ selectedRows rowsW 1 "s", r.user_id = 1 ∧ r.session_id = "s")
    ∧ (chatMatches rowsW 1 "s" = [] → load_memory_variables rowsW 1 "s" = [])
    ∧ (∀ r ∈ chatMatches rowsW 1 "s", r ∉ selectedRows rowsW 1 "s" →
        ∀ s ∈ selectedRows rowsW 1 "s", r.timestamp ≤ s.timestamp) :=
  load_recent_bounded_chronological rowsW 1 "s"
